import Mathlib

/-!
Shallow embedding of the PlanMyDay backend (src/backend/server.py and
src/backend/populate_db.py) together with proofs about it.

Modelling conventions:
* Python floats for coordinates, ratings and temperatures are embedded as `ℚ`
  (every literal in the source is a short decimal).
* Python `int` is embedded as `ℤ`.
* The itinerary's `start_time`/`end_time` fields are `"HH:MM"` strings in the
  source, produced by `strftime("%H:%M")`.  Such a string is in one-to-one
  correspondence with a minutes-of-day value in `0..1439`, and we embed the
  string by that value: `strftime("%H:%M")` of a clock that is `t` minutes
  after midnight renders the value `t % 1440` (`Int.emod`, which like
  Python's `%` is non-negative for a positive modulus).
* Network effects are made explicit: each outbound call is parameterised by
  an outcome value describing what the external service did, and the
  function computes what the Python code does on that outcome.
-/

/-- Geographic location, from the `Location` pydantic model. -/
structure Location where
  lat : ℚ
  lng : ℚ
  address : String
deriving DecidableEq, Repr

/-- Plan request body, from the `PlanRequest` pydantic model. -/
structure PlanRequest where
  location : Location
  budget : ℤ
  interests : List String
  duration : String
  group_size : ℤ := 1
deriving DecidableEq, Repr

/-- Venue record, from the `Venue` pydantic model. -/
structure Venue where
  id : String
  name : String
  category : String
  location : Location
  price_range : String
  rating : ℚ
  description : String
  popular_items : List String := []
  opening_hours : String
  estimated_duration : ℤ
  booking_url : Option String := none
deriving DecidableEq, Repr

/-- Weather snapshot, from the `WeatherData` pydantic model. -/
structure WeatherData where
  temperature : ℚ
  description : String
  feels_like : ℚ
  humidity : ℤ
  weather_main : String
deriving DecidableEq, Repr

/-- One itinerary entry, from the `ItineraryItem` pydantic model.
`start_time` and `end_time` are the `"HH:MM"` strings of the source embedded
as minutes-of-day (see the module docstring). -/
structure ItineraryItem where
  venue : Venue
  start_time : ℤ
  end_time : ℤ
  notes : String := ""
deriving DecidableEq, Repr

/-- Persisted day plan, from the `DayPlan` pydantic model.  `id`, `date` and
`created_at` are produced by `uuid.uuid4()` / `datetime.now()` in the source;
the embedding passes them in as parameters. -/
structure DayPlan where
  id : String
  location : Location
  date : String
  weather : WeatherData
  total_budget : ℤ
  estimated_cost : ℤ
  itinerary : List ItineraryItem
  created_at : String
deriving DecidableEq, Repr

/-- Fields the weather-API success body is read at
(`data["main"]["temp"]`, `data["weather"][0]["description"]`, ...). -/
structure OWMBody where
  temp : ℚ
  feels_like : ℚ
  humidity : ℤ
  description : String
  main : String
deriving DecidableEq, Repr

/-- Outcome of the single outbound HTTP GET in `get_current_weather`:
either a 2xx response whose JSON body has the expected fields, or one of the
failure modes (`raise_for_status` on a non-success status, a transport
error, a timeout), all of which raise and land in the `except` block. -/
inductive HttpOutcome where
  | success (body : OWMBody)
  | httpError (status : ℕ)
  | transportError
  | timeout
deriving DecidableEq, Repr

/-- The fixed fallback snapshot returned by `get_current_weather` on any
exception. -/
def fallbackWeather : WeatherData :=
  { temperature := 22, description := "partly cloudy", feels_like := 24,
    humidity := 65, weather_main := "Clouds" }

namespace WeatherService

/-- Embedding of `WeatherService.get_current_weather`: builds `WeatherData`
from the response body on success, and returns the fixed fallback snapshot
whenever the request raised (non-2xx status, transport error, timeout). -/
def get_current_weather (lat lng : ℚ) (outcome : HttpOutcome) : WeatherData :=
  match lat, lng, outcome with
  | _, _, .success body =>
      { temperature := body.temp, description := body.description,
        feels_like := body.feels_like, humidity := body.humidity,
        weather_main := body.main }
  | _, _, .httpError _ => fallbackWeather
  | _, _, .transportError => fallbackWeather
  | _, _, .timeout => fallbackWeather

end WeatherService

/-- Stable insertion of a venue into a list sorted by non-increasing rating:
the venue is placed after every element of strictly greater rating and
before the first element whose rating is less than or equal to its own. -/
def insertByRating (v : Venue) : List Venue → List Venue
  | [] => [v]
  | w :: ws => if v.rating < w.rating then w :: insertByRating v ws else v :: w :: ws

/-- Embedding of Python's `sorted(venues, key=lambda x: x['rating'],
reverse=True)`.  Python's `sorted` is a stable sort, and with `reverse=True`
it produces the non-increasing-by-key order with equal-key elements kept in
input order; a stable sort is uniquely determined by its key order, so this
stable insertion sort computes the same list. -/
def sortByRatingDesc : List Venue → List Venue
  | [] => []
  | v :: vs => insertByRating v (sortByRatingDesc vs)

theorem length_insertByRating (v : Venue) (l : List Venue) :
    (insertByRating v l).length = l.length + 1 := by
  induction l with
  | nil => rfl
  | cons w ws ih =>
    by_cases h : v.rating < w.rating
    · simp [insertByRating, h, ih]
    · simp [insertByRating, h]

theorem length_sortByRatingDesc (l : List Venue) :
    (sortByRatingDesc l).length = l.length := by
  induction l with
  | nil => rfl
  | cons v vs ih => simp [sortByRatingDesc, length_insertByRating, ih]

theorem mem_insertByRating {x v : Venue} {l : List Venue} :
    x ∈ insertByRating v l ↔ x = v ∨ x ∈ l := by
  induction l with
  | nil => simp [insertByRating]
  | cons w ws ih =>
    by_cases h : v.rating < w.rating
    · simp [insertByRating, h, ih]; tauto
    · simp [insertByRating, h]

/-- `insertByRating` preserves the non-increasing-rating order. -/
theorem pairwise_insertByRating {v : Venue} {l : List Venue}
    (hl : l.Pairwise (fun a b => b.rating ≤ a.rating)) :
    (insertByRating v l).Pairwise (fun a b => b.rating ≤ a.rating) := by
  induction l with
  | nil => simp [insertByRating]
  | cons w ws ih =>
    rcases List.pairwise_cons.mp hl with ⟨hw, hws⟩
    by_cases h : v.rating < w.rating
    · simp only [insertByRating, if_pos h]
      refine List.pairwise_cons.mpr ⟨?_, ih hws⟩
      intro x hx
      rcases mem_insertByRating.mp hx with rfl | hx
      · exact le_of_lt h
      · exact hw x hx
    · simp only [insertByRating, if_neg h]
      refine List.pairwise_cons.mpr ⟨?_, hl⟩
      intro x hx
      rcases List.mem_cons.mp hx with rfl | hx
      · exact not_lt.mp h
      · exact le_trans (hw x hx) (not_lt.mp h)

theorem pairwise_sortByRatingDesc (l : List Venue) :
    (sortByRatingDesc l).Pairwise (fun a b => b.rating ≤ a.rating) := by
  induction l with
  | nil => simp [sortByRatingDesc]
  | cons v vs ih => exact pairwise_insertByRating ih

/-- Inserting a venue whose rating is `r` prepends it to the sublist of
rating-`r` elements. -/
theorem filter_insertByRating_eq {v : Venue} {r : ℚ} (hv : v.rating = r)
    (l : List Venue) :
    (insertByRating v l).filter (fun w => decide (w.rating = r)) =
      v :: l.filter (fun w => decide (w.rating = r)) := by
  induction l with
  | nil => simp [insertByRating, hv]
  | cons w ws ih =>
    by_cases h : v.rating < w.rating
    · have hw : ¬ w.rating = r := by
        intro hwr; rw [hv, hwr] at h; exact lt_irrefl _ h
      simp [insertByRating, h, List.filter_cons, hw, ih]
    · simp only [insertByRating, if_neg h]
      simp [List.filter_cons, hv]

/-- Inserting a venue whose rating is not `r` leaves the sublist of
rating-`r` elements unchanged. -/
theorem filter_insertByRating_ne {v : Venue} {r : ℚ} (hv : ¬ v.rating = r)
    (l : List Venue) :
    (insertByRating v l).filter (fun w => decide (w.rating = r)) =
      l.filter (fun w => decide (w.rating = r)) := by
  induction l with
  | nil => simp [insertByRating, hv]
  | cons w ws ih =>
    by_cases h : v.rating < w.rating
    · simp [insertByRating, h, List.filter_cons, ih]
    · simp [insertByRating, h, List.filter_cons, hv]

/-- Stability of the sort: for each rating value, the elements carrying that
rating appear in the sorted output exactly as they appear in the input. -/
theorem filter_sortByRatingDesc (l : List Venue) (r : ℚ) :
    (sortByRatingDesc l).filter (fun w => decide (w.rating = r)) =
      l.filter (fun w => decide (w.rating = r)) := by
  induction l with
  | nil => rfl
  | cons v vs ih =>
    by_cases hv : v.rating = r
    · rw [sortByRatingDesc, filter_insertByRating_eq hv, ih]
      simp [List.filter_cons, hv]
    · rw [sortByRatingDesc, filter_insertByRating_ne hv, ih]
      simp [List.filter_cons, hv]

/-- Embedding of the `for venue_data in suitable_venues` loop of
`fallback_planning`.  `current` is the source's running `datetime` clock,
counted in minutes from midnight of the anchor day (it starts at 540, i.e.
09:00, and is never reduced modulo a day); the stored `"HH:MM"` strings are
embedded as `current % 1440` per the module docstring. -/
def fallbackLoop : List Venue → ℤ → List ItineraryItem
  | [], _ => []
  | v :: vs, current =>
      { venue := v, start_time := current % 1440,
        end_time := (current + v.estimated_duration) % 1440,
        notes := "A great choice." } ::
        fallbackLoop vs (current + v.estimated_duration + 30)

namespace AIPlanner

/-- Embedding of `AIPlanner.fallback_planning`: the `suitable_venues` list is
the stable non-increasing-rating sort of the candidates truncated to five,
and the loop packs them starting at 09:00 (minute 540) with a 30-minute gap
after each visit.  The `request` and `weather` arguments are accepted and
never used, exactly as in the source. -/
def fallback_planning (request : PlanRequest) (weather : WeatherData)
    (venues : List Venue) : List ItineraryItem :=
  fallbackLoop ((sortByRatingDesc venues).take 5) 540

end AIPlanner

theorem fallbackLoop_map_venue (vs : List Venue) (c : ℤ) :
    (fallbackLoop vs c).map (fun it => it.venue) = vs := by
  induction vs generalizing c with
  | nil => rfl
  | cons v vs ih => simp [fallbackLoop, ih]

/-- Every item the loop produces stores a wall-clock start in `0..1439` and
an end equal to the wall-clock reading of start plus the visit duration. -/
theorem fallbackLoop_item (vs : List Venue) (c : ℤ) :
    ∀ it ∈ fallbackLoop vs c,
      it.end_time = (it.start_time + it.venue.estimated_duration) % 1440 ∧
      0 ≤ it.start_time ∧ it.start_time < 1440 := by
  induction vs generalizing c with
  | nil => intro it h; simp [fallbackLoop] at h
  | cons v vs ih =>
    intro it h
    rw [fallbackLoop] at h
    rcases List.mem_cons.mp h with rfl | h
    · refine ⟨?_, ?_, ?_⟩ <;> dsimp <;> omega
    · exact ih _ it h

/-- Consecutive loop items are separated by the fixed 30-minute gap, read on
the wall clock. -/
theorem fallbackLoop_chain (vs : List Venue) (c : ℤ) :
    List.Chain' (fun a b => b.start_time = (a.end_time + 30) % 1440)
      (fallbackLoop vs c) := by
  induction vs generalizing c with
  | nil => simp [fallbackLoop]
  | cons v vs ih =>
    cases vs with
    | nil => simp [fallbackLoop]
    | cons w ws =>
      rw [fallbackLoop, fallbackLoop]
      refine List.chain'_cons.mpr ⟨?_, ?_⟩
      · dsimp; omega
      · exact ih _

/-- Sample venues initialised by `init_sample_data` (`SAMPLE_VENUES` in the
source; `uuid.uuid4()` ids are modelled as fixed placeholder strings). -/
def sampleVenue1 : Venue :=
  { id := "sample-venue-1", name := "The Coffee Corner", category := "restaurant",
    location := { lat := 40.7589, lng := -73.9851, address := "123 Broadway, NYC" },
    price_range := "$$", rating := 4.5, description := "Cozy coffee shop",
    opening_hours := "7:00 AM - 6:00 PM", estimated_duration := 45 }

/-- Second sample venue from `SAMPLE_VENUES`. -/
def sampleVenue2 : Venue :=
  { id := "sample-venue-2", name := "Central Park", category := "attraction",
    location := { lat := 40.7821, lng := -73.9654, address := "Central Park, NYC" },
    price_range := "$", rating := 4.8, description := "Iconic urban park",
    opening_hours := "6:00 AM - 1:00 AM", estimated_duration := 120 }

/-- A concrete plan request used to instantiate theorems. -/
def sampleRequest : PlanRequest :=
  { location := { lat := 40.7589, lng := -73.9851, address := "123 Broadway, NYC" },
    budget := 100, interests := ["coffee", "parks"], duration := "full-day" }

/-- A venue whose `estimated_duration` is zero (the `Venue` model accepts any
`int`; there is no positivity check anywhere in the source). -/
def zeroDurVenue : Venue :=
  { id := "zero-duration", name := "Instant Stop", category := "attraction",
    location := { lat := 0, lng := 0, address := "Nowhere Lane" },
    price_range := "$", rating := 4, description := "A zero-minute visit",
    opening_hours := "24/7", estimated_duration := 0 }

/-- C2: for every non-empty candidate list the fallback strategy returns
between 1 and 5 items, their venues are in non-increasing rating order, and
for each rating value the venues carrying it appear as a prefix of (hence in
the same relative order as) their occurrences in the input list. -/
theorem c2_fallback_count_order_stability (request : PlanRequest)
    (weather : WeatherData) (venues : List Venue) (h : venues ≠ []) :
    1 ≤ (AIPlanner.fallback_planning request weather venues).length ∧
    (AIPlanner.fallback_planning request weather venues).length ≤ 5 ∧
    (AIPlanner.fallback_planning request weather venues).Pairwise
      (fun a b => b.venue.rating ≤ a.venue.rating) ∧
    ∀ r : ℚ, ∃ rest,
      venues.filter (fun v => decide (v.rating = r)) =
        ((AIPlanner.fallback_planning request weather venues).map
            (fun it => it.venue)).filter (fun v => decide (v.rating = r)) ++ rest := by
  have hmap : (AIPlanner.fallback_planning request weather venues).map
      (fun it => it.venue) = (sortByRatingDesc venues).take 5 :=
    fallbackLoop_map_venue _ _
  have hlen : (AIPlanner.fallback_planning request weather venues).length =
      min 5 venues.length := by
    have h1 := congrArg List.length hmap
    rw [List.length_map, List.length_take, length_sortByRatingDesc] at h1
    exact h1
  have hpos : 0 < venues.length := List.length_pos.mpr h
  refine ⟨by omega, by omega, ?_, ?_⟩
  · have hsorted := pairwise_sortByRatingDesc venues
    have htake : ((sortByRatingDesc venues).take 5).Pairwise
        (fun a b => b.rating ≤ a.rating) :=
      hsorted.sublist (List.take_sublist _ _)
    rw [← hmap] at htake
    exact List.pairwise_map.mp htake
  · intro r
    refine ⟨((sortByRatingDesc venues).drop 5).filter
      (fun v => decide (v.rating = r)), ?_⟩
    rw [hmap, ← List.filter_append, List.take_append_drop,
      filter_sortByRatingDesc]

/-- Witness for C2 at a concrete one-venue input. -/
theorem c2_fallback_count_order_stability_witness :
    1 ≤ (AIPlanner.fallback_planning sampleRequest fallbackWeather
          [sampleVenue1]).length ∧
    (AIPlanner.fallback_planning sampleRequest fallbackWeather
          [sampleVenue1]).length ≤ 5 :=
  ⟨(c2_fallback_count_order_stability sampleRequest fallbackWeather
      [sampleVenue1] (by simp)).1,
   (c2_fallback_count_order_stability sampleRequest fallbackWeather
      [sampleVenue1] (by simp)).2.1⟩

/-- C3: on a non-empty venue list the first fallback item starts exactly at
09:00 (minute 540); every item's end is the wall-clock reading of its start
plus its venue's estimated duration; and each next item starts at the
wall-clock reading of the previous end plus 30 minutes. -/
theorem c3_fallback_schedule (request : PlanRequest) (weather : WeatherData)
    (venues : List Venue) (h : venues ≠ []) :
    (∃ first rest, AIPlanner.fallback_planning request weather venues =
        first :: rest ∧ first.start_time = 540) ∧
    (∀ it ∈ AIPlanner.fallback_planning request weather venues,
        it.end_time = (it.start_time + it.venue.estimated_duration) % 1440) ∧
    List.Chain' (fun a b => b.start_time = (a.end_time + 30) % 1440)
      (AIPlanner.fallback_planning request weather venues) := by
  have hpos : 0 < venues.length := List.length_pos.mpr h
  have hne : (sortByRatingDesc venues).take 5 ≠ [] := by
    intro hcontra
    have hlen := congrArg List.length hcontra
    rw [List.length_take, length_sortByRatingDesc, List.length_nil] at hlen
    omega
  obtain ⟨v, vs', hsv⟩ := List.exists_cons_of_ne_nil hne
  refine ⟨?_, ?_, ?_⟩
  · have hfb : AIPlanner.fallback_planning request weather venues =
        { venue := v, start_time := 540 % 1440,
          end_time := (540 + v.estimated_duration) % 1440,
          notes := "A great choice." } ::
          fallbackLoop vs' (540 + v.estimated_duration + 30) := by
      unfold AIPlanner.fallback_planning
      rw [hsv, fallbackLoop]
    exact ⟨_, _, hfb, show (540 : ℤ) % 1440 = 540 by decide⟩
  · intro it hit
    exact (fallbackLoop_item _ _ it hit).1
  · exact fallbackLoop_chain _ _

/-- Witness for C3 at a concrete one-venue input. -/
theorem c3_fallback_schedule_witness :
    ∃ first rest, AIPlanner.fallback_planning sampleRequest fallbackWeather
        [sampleVenue1] = first :: rest ∧ first.start_time = 540 :=
  (c3_fallback_schedule sampleRequest fallbackWeather [sampleVenue1]
    (by simp)).1

/-- C4 (amended): a fallback item's end is strictly after its start on the
wall clock provided the venue's estimated duration is positive and the visit
does not run past midnight; the unamended claim fails for a zero-duration
venue (see the counterexample). -/
theorem c4_fallback_end_after_start (request : PlanRequest)
    (weather : WeatherData) (venues : List Venue) :
    ∀ it ∈ AIPlanner.fallback_planning request weather venues,
      0 < it.venue.estimated_duration →
      it.start_time + it.venue.estimated_duration < 1440 →
      it.start_time < it.end_time := by
  intro it hit hd hday
  obtain ⟨hend, hge, hlt⟩ := fallbackLoop_item _ _ it hit
  omega

/-- Witness for C4's amended theorem at a concrete input. -/
theorem c4_fallback_end_after_start_witness :
    ({ venue := sampleVenue1, start_time := 540, end_time := 585,
       notes := "A great choice." } : ItineraryItem).start_time <
    ({ venue := sampleVenue1, start_time := 540, end_time := 585,
       notes := "A great choice." } : ItineraryItem).end_time :=
  c4_fallback_end_after_start sampleRequest fallbackWeather [sampleVenue1] _
    (List.mem_cons_self _ _) (by decide) (by decide)

/-- C4 counterexample: with a zero-duration venue the produced item has
`end_time = start_time = 540`, so "end strictly greater than start" fails. -/
theorem c4_counterexample :
    ¬ ∀ it ∈ AIPlanner.fallback_planning sampleRequest fallbackWeather
        [zeroDurVenue], it.start_time < it.end_time := by
  decide

/-- C10: the fallback strategy's output depends only on the venue list; the
request and weather arguments are ignored. -/
theorem c10_fallback_ignores_request_and_weather (venues : List Venue)
    (r₁ r₂ : PlanRequest) (w₁ w₂ : WeatherData) :
    AIPlanner.fallback_planning r₁ w₁ venues =
      AIPlanner.fallback_planning r₂ w₂ venues := rfl

/-- One proposed stop of the parsed language-model response
(`ai_data["itinerary"]` entries).  The source reads `item["venue_name"]`
(raising, hence falling back, if absent) and passes `start_time`/`end_time`/
`notes` through unvalidated via `item.get(...)`; we model stops whose time
fields carry clock values, as no verified claim inspects them. -/
structure ProposedStop where
  venue_name : String
  start_time : ℤ
  end_time : ℤ
  notes : String
deriving DecidableEq, Repr

/-- Does the character list `needle` occur at the start of `haystack`? -/
def charsStart : List Char → List Char → Bool
  | [], _ => true
  | _ :: _, [] => false
  | a :: as, b :: bs => a == b && charsStart as bs

/-- Does the character list `needle` occur contiguously anywhere inside
`haystack`?  This is Python's `needle in haystack` on strings. -/
def charsOccur : List Char → List Char → Bool
  | needle, [] => charsStart needle []
  | needle, b :: bs => charsStart needle (b :: bs) || charsOccur needle bs

/-- Embedding of `v["name"].lower() in item["venue_name"].lower()`:
case-insensitive contiguous-substring containment of the venue's name in the
proposed stop's venue-name field. -/
def nameMatches (v : Venue) (stopName : String) : Bool :=
  charsOccur (v.name.data.map Char.toLower) (stopName.data.map Char.toLower)

/-- Embedding of `next((v for v in venues if ...), None)`: the first venue in
candidate order whose name matches, if any. -/
def matchVenue (stopName : String) (venues : List Venue) : Option Venue :=
  venues.find? (fun v => nameMatches v stopName)

/-- Embedding of the `for item in ai_data.get("itinerary", [])` loop: each
proposed stop that matches a candidate venue contributes one itinerary item
(venue from the catalog, times and notes passed through from the stop), and
unmatched stops are skipped. -/
def matchStops (stops : List ProposedStop) (venues : List Venue) :
    List ItineraryItem :=
  stops.filterMap (fun s =>
    (matchVenue s.venue_name venues).map (fun v =>
      { venue := v, start_time := s.start_time, end_time := s.end_time,
        notes := s.notes }))

/-- Outcome of the generative path in `generate_itinerary`: either some step
before the matching loop raised (network error, malformed non-JSON response,
parse error, missing `venue_name` key), or the response was received and
parsed into a list of proposed stops. -/
inductive AIOutcome where
  | failure
  | parsed (stops : List ProposedStop)
deriving DecidableEq, Repr

namespace AIPlanner

/-- Embedding of `AIPlanner.generate_itinerary`: on the parsed outcome the
matching loop's result is returned as-is (even when it is empty); only an
exception anywhere in the try block switches to `fallback_planning`. -/
def generate_itinerary (outcome : AIOutcome) (request : PlanRequest)
    (weather : WeatherData) (venues : List Venue) : List ItineraryItem :=
  match outcome with
  | .failure => fallback_planning request weather venues
  | .parsed stops => matchStops stops venues

end AIPlanner

/-- A proposed stop naming no catalog venue. -/
def noMatchStop : ProposedStop :=
  { venue_name := "Some Unknown Museum", start_time := 600, end_time := 660,
    notes := "made up by the model" }

/-- A proposed stop naming `sampleVenue1` in different case. -/
def coffeeStop : ProposedStop :=
  { venue_name := "the coffee corner", start_time := 540, end_time := 585,
    notes := "grab a flat white" }

/-- C1 counterexample: a parsed response whose single stop matches no
candidate makes `generate_itinerary` return the empty list, which differs
from `fallback_planning` on the same non-empty venue list. -/
theorem c1_counterexample :
    AIPlanner.generate_itinerary (.parsed [noMatchStop]) sampleRequest
        fallbackWeather [sampleVenue1] ≠
      AIPlanner.fallback_planning sampleRequest fallbackWeather
        [sampleVenue1] := by
  intro hcontra
  have hlen := congrArg List.length hcontra
  have hmatch : matchVenue noMatchStop.venue_name [sampleVenue1] = none := by
    rfl
  rw [AIPlanner.generate_itinerary, matchStops, List.filterMap] at hlen
  rw [hmatch] at hlen
  simp [AIPlanner.fallback_planning, sortByRatingDesc, insertByRating,
    fallbackLoop] at hlen

/-- C1 (amended): a parsed response with zero matching stops yields the empty
itinerary directly — the fallback strategy is not invoked; only an exception
in the generative path (network error, malformed response, parse error)
makes `generate_itinerary` return `fallback_planning`'s result. -/
theorem c1_zero_matches_returns_empty (request : PlanRequest)
    (weather : WeatherData) (venues : List Venue) (stops : List ProposedStop)
    (h : matchStops stops venues = []) :
    AIPlanner.generate_itinerary (.parsed stops) request weather venues = [] ∧
    AIPlanner.generate_itinerary .failure request weather venues =
      AIPlanner.fallback_planning request weather venues := by
  exact ⟨h, rfl⟩

/-- Witness for C1's amended theorem at a concrete input. -/
theorem c1_zero_matches_returns_empty_witness :
    AIPlanner.generate_itinerary (.parsed [noMatchStop]) sampleRequest
        fallbackWeather [sampleVenue1] = [] ∧
    AIPlanner.generate_itinerary .failure sampleRequest fallbackWeather
        [sampleVenue1] =
      AIPlanner.fallback_planning sampleRequest fallbackWeather
        [sampleVenue1] :=
  c1_zero_matches_returns_empty sampleRequest fallbackWeather [sampleVenue1]
    [noMatchStop] rfl

/-- Auxiliary: a successful `find?` returns an element of the list that
satisfies the predicate and is preceded only by elements that do not. -/
theorem find?_first {α : Type} {p : α → Bool} {l : List α} {v : α}
    (h : l.find? p = some v) :
    p v = true ∧ ∃ l₁ l₂, l = l₁ ++ v :: l₂ ∧ ∀ u ∈ l₁, p u = false := by
  induction l with
  | nil => simp [List.find?] at h
  | cons a l ih =>
    rw [List.find?] at h
    by_cases ha : p a
    · rw [ha] at h
      simp only [Option.some.injEq] at h
      subst h
      exact ⟨ha, [], l, rfl, by simp⟩
    · rw [Bool.of_not_eq_true ha] at h
      obtain ⟨hv, l₁, l₂, rfl, hall⟩ := ih h
      refine ⟨hv, a :: l₁, l₂, rfl, ?_⟩
      intro u hu
      rcases List.mem_cons.mp hu with rfl | hu
      · exact Bool.of_not_eq_true ha
      · exact hall u hu

/-- C8: a proposed stop is matched exactly when some candidate's name is a
case-insensitive substring of the stop's venue-name field; the venue chosen
is the first such candidate in candidate order; and an unmatched stop is
dropped without affecting the items produced for the other stops. -/
theorem c8_matching_semantics (stopName : String) (venues : List Venue) :
    ((matchVenue stopName venues).isSome ↔
      ∃ v ∈ venues, nameMatches v stopName = true) ∧
    (∀ v, matchVenue stopName venues = some v →
      nameMatches v stopName = true ∧
      ∃ l₁ l₂, venues = l₁ ++ v :: l₂ ∧
        ∀ u ∈ l₁, nameMatches u stopName = false) ∧
    (∀ (s : ProposedStop) (stops₁ stops₂ : List ProposedStop),
      matchVenue s.venue_name venues = none →
      matchStops (stops₁ ++ s :: stops₂) venues =
        matchStops (stops₁ ++ stops₂) venues) := by
  refine ⟨?_, ?_, ?_⟩
  · rw [matchVenue, List.find?_isSome]
  · intro v hv
    exact find?_first hv
  · intro s stops₁ stops₂ hnone
    simp [matchStops, List.filterMap_append, hnone]

/-- Witness for C8 at concrete inputs: `"the coffee corner"` matches the
catalog venue named `"The Coffee Corner"`, and dropping an unmatched stop
leaves the other stops' items unchanged. -/
theorem c8_matching_semantics_witness :
    (matchVenue "the coffee corner" [sampleVenue1]).isSome ∧
    matchStops [coffeeStop, noMatchStop] [sampleVenue1] =
      matchStops [coffeeStop] [sampleVenue1] :=
  ⟨(c8_matching_semantics "the coffee corner" [sampleVenue1]).1.mpr
      ⟨sampleVenue1, List.mem_cons_self _ _, rfl⟩,
    (c8_matching_semantics noMatchStop.venue_name [sampleVenue1]).2.2
      noMatchStop [coffeeStop] [] rfl⟩

/-- C7: the weather lookup never propagates a failure — on a transport
error, a timeout, or any non-success HTTP status it returns exactly the
fixed fallback snapshot (22.0°, "partly cloudy", feels-like 24.0°, humidity
65, condition "Clouds"). -/
theorem c7_weather_failure_fallback (lat lng : ℚ) (status : ℕ) :
    WeatherService.get_current_weather lat lng .transportError =
      fallbackWeather ∧
    WeatherService.get_current_weather lat lng .timeout = fallbackWeather ∧
    WeatherService.get_current_weather lat lng (.httpError status) =
      fallbackWeather ∧
    fallbackWeather =
      { temperature := 22, description := "partly cloudy",
        feels_like := 24, humidity := 65, weather_main := "Clouds" } :=
  ⟨rfl, rfl, rfl, rfl⟩

/-- Embedding of `price_map.get(item.venue.price_range, 0)` for
`price_map = {"$": 25, "$$": 50, "$$$": 100, "$$$$": 150}` in
`create_day_plan`: dictionary lookup with default 0. -/
def price_map_get (s : String) : ℤ :=
  if s = "$" then 25 else if s = "$$" then 50 else if s = "$$$" then 100
  else if s = "$$$$" then 150 else 0

/-- Embedding of the `estimated_cost` sum computed in `create_day_plan`. -/
def estimated_cost (itinerary : List ItineraryItem) : ℤ :=
  (itinerary.map (fun it => price_map_get it.venue.price_range)).sum

/-- Modelled from the spec's words, for comparison in C6: the price table
"free→0, $→25, $$→50, $$$→100, $$$$→150; unknown tier→0". -/
def specPriceTable (s : String) : ℤ :=
  if s = "free" then 0 else if s = "$" then 25 else if s = "$$" then 50
  else if s = "$$$" then 100 else if s = "$$$$" then 150 else 0

/-- Embedding of the `POST /api/plan` handler `create_day_plan`.  The first
component is the HTTP result (`.error 500` models
`HTTPException(status_code=500)`); the second is the list of documents the
handler inserts into the plans collection.  `freshId`, `date` and
`createdAt` stand for `uuid.uuid4()` / `datetime.now()`. -/
def create_day_plan (request : PlanRequest) (weatherOutcome : HttpOutcome)
    (venues : List Venue) (aiOutcome : AIOutcome)
    (freshId date createdAt : String) : Except ℕ DayPlan × List DayPlan :=
  let weather := WeatherService.get_current_weather request.location.lat
    request.location.lng weatherOutcome
  let itinerary := AIPlanner.generate_itinerary aiOutcome request weather
    venues
  if itinerary = [] then (.error 500, [])
  else
    let day_plan : DayPlan :=
      { id := freshId, location := request.location, date := date,
        weather := weather, total_budget := request.budget,
        estimated_cost := estimated_cost itinerary, itinerary := itinerary,
        created_at := createdAt }
    (.ok day_plan, [day_plan])

theorem matchStops_nil_venues (stops : List ProposedStop) :
    matchStops stops ([] : List Venue) = [] := by
  induction stops with
  | nil => rfl
  | cons s ss ih =>
    rw [matchStops] at ih ⊢
    rw [List.filterMap_cons]
    exact ih

/-- C5: on an empty candidate venue list the fallback strategy returns the
empty itinerary, and plan creation answers HTTP 500 and persists nothing —
whichever outcome the generative call had. -/
theorem c5_empty_venues_500 (request : PlanRequest)
    (weatherOutcome : HttpOutcome) (aiOutcome : AIOutcome)
    (freshId date createdAt : String) :
    AIPlanner.fallback_planning request
      (WeatherService.get_current_weather request.location.lat
        request.location.lng weatherOutcome) [] = [] ∧
    create_day_plan request weatherOutcome [] aiOutcome freshId date
      createdAt = (.error 500, []) := by
  refine ⟨rfl, ?_⟩
  cases aiOutcome with
  | failure => rfl
  | parsed stops =>
    have h := matchStops_nil_venues stops
    simp [create_day_plan, AIPlanner.generate_itinerary, h]

/-- C6: the estimated cost is the sum of the fixed per-tier price table over
the itinerary's items (the code's lookup-with-default agrees with the spec's
table everywhere, including `free` and unknown tiers); a `$$` venue plus a
`$` venue costs 75; and the cost depends only on the items' price tiers. -/
theorem c6_estimated_cost_table :
    (∀ s, price_map_get s = specPriceTable s) ∧
    (∀ itinerary : List ItineraryItem, estimated_cost itinerary =
      (itinerary.map (fun it => specPriceTable it.venue.price_range)).sum) ∧
    estimated_cost
      [{ venue := sampleVenue1, start_time := 540, end_time := 585 },
       { venue := sampleVenue2, start_time := 615, end_time := 735 }] = 75 ∧
    (∀ i₁ i₂ : List ItineraryItem,
      i₁.map (fun it => it.venue.price_range) =
        i₂.map (fun it => it.venue.price_range) →
      estimated_cost i₁ = estimated_cost i₂) := by
  have hfun : price_map_get = specPriceTable := by
    funext s
    rw [price_map_get, specPriceTable]
    split_ifs <;> simp_all
  have hvia : ∀ i : List ItineraryItem, estimated_cost i =
      ((i.map (fun it => it.venue.price_range)).map price_map_get).sum := by
    intro i
    rw [estimated_cost, List.map_map]
    rfl
  refine ⟨fun s => congrFun hfun s, ?_, ?_, ?_⟩
  · intro itinerary
    rw [estimated_cost, hfun]
  · rw [estimated_cost]
    decide
  · intro i₁ i₂ h
    rw [hvia, hvia, h]

/-- Witness for C6's tier-dependence conjunct at concrete inputs: two
itineraries over the same venue with different times and notes have equal
estimated cost. -/
theorem c6_estimated_cost_table_witness :
    estimated_cost
      [{ venue := sampleVenue1, start_time := 540, end_time := 585 }] =
    estimated_cost
      [{ venue := sampleVenue1, start_time := 600, end_time := 645,
         notes := "later" }] :=
  c6_estimated_cost_table.2.2.2 _ _ rfl

/-- Geographic point as stored by the seeding script `populate_db.py`
(its venue dictionaries carry no address field). -/
structure GeoPoint where
  lat : ℚ
  lng : ℚ
deriving DecidableEq, Repr

/-- A venue document as inserted by `populate_db.py`.  The store is
schemaless and the fixed list's dictionaries carry different optional
fields, modelled with `Option`. -/
structure VenueDoc where
  name : String
  category : String
  location : GeoPoint
  price_range : String
  rating : ℚ
  popular_dishes : Option (List String) := none
  description : Option String := none
  booking_url : Option String := none
deriving DecidableEq, Repr

/-- The fixed venue catalog `OUR_VENUES` of `populate_db.py`. -/
def OUR_VENUES : List VenueDoc :=
  [{ name := "Tech Cafe 2049", category := "restaurant",
     location := { lat := 12.9716, lng := 77.5946 }, price_range := "$$",
     rating := 4.7,
     popular_dishes := some ["Quantum Quiche", "Neural-Net Nachos"],
     booking_url := some "https://example.com/book/techcafe" },
   { name := "The Green Leaf Bistro", category := "restaurant",
     location := { lat := 12.9345, lng := 77.6244 }, price_range := "$$$",
     rating := 4.9,
     popular_dishes := some ["Avocado Toast", "Kale Smoothie", "Vegan Burger"],
     booking_url := some "https://example.com/book/greenleaf" },
   { name := "City Art Gallery", category := "attraction",
     location := { lat := 12.9757, lng := 77.5929 }, price_range := "$",
     rating := 4.6,
     description :=
       some "Features modern and contemporary art from local artists." },
   { name := "Innovate Hub", category := "activity",
     location := { lat := 12.9279, lng := 77.6271 }, price_range := "Free",
     rating := 4.8,
     description :=
       some "A co-working and event space for tech enthusiasts. Hosts weekly meetups." },
   { name := "The Escape Room: Sector 7", category := "activity",
     location := { lat := 12.9352, lng := 77.6169 }, price_range := "$$$",
     rating := 4.9,
     description := some "A challenging sci-fi themed escape room adventure.",
     booking_url := some "https://example.com/book/escaperoom7" },
   { name := "Rooftop Cinema Club", category := "event",
     location := { lat := 12.9592, lng := 77.6455 }, price_range := "$$",
     rating := 4.7,
     description :=
       some "Outdoor movie screenings with classic films and city views.",
     booking_url := some "https://example.com/book/rooftopcinema" },
   { name := "Downtown Music Hall", category := "event",
     location := { lat := 12.9845, lng := 77.5995 }, price_range := "$$$",
     rating := 4.6,
     description :=
       some "Live music venue featuring indie bands and international artists.",
     booking_url := some "https://example.com/book/downtownmusic" }]

/-- State of the `venues` collection: its documents (held by value; the
`_id`s Mongo generates are not modelled) and the names of its indexes. -/
structure VenueCollection where
  venues : List VenueDoc
  indexes : List String
deriving DecidableEq, Repr

/-- Embedding of `create_index([("location", "2dsphere")])`: creating an
index that already exists is a no-op. -/
def create_index (idx : String) (c : VenueCollection) : VenueCollection :=
  if idx ∈ c.indexes then c else { c with indexes := c.indexes ++ [idx] }

/-- Embedding of `populate_database`: `delete_many({})` empties the
collection, `insert_many(OUR_VENUES)` appends the fixed list, and
`create_index` ensures the geospatial index. -/
def populate_database (c : VenueCollection) : VenueCollection :=
  let cleared : VenueCollection := { c with venues := [] }
  let inserted : VenueCollection :=
    { cleared with venues := cleared.venues ++ OUR_VENUES }
  create_index "location_2dsphere" inserted

theorem venues_create_index (idx : String) (c : VenueCollection) :
    (create_index idx c).venues = c.venues := by
  rw [create_index]
  split_ifs <;> rfl

theorem mem_indexes_create_index (idx : String) (c : VenueCollection) :
    idx ∈ (create_index idx c).indexes := by
  rw [create_index]
  split_ifs with h
  · exact h
  · exact List.mem_append_right _ (List.mem_singleton.mpr rfl)

/-- C9: seeding is idempotent — running it twice equals running it once,
the resulting documents are the fixed list whatever the prior contents, and
the document count equals that list's length after each run. -/
theorem c9_populate_idempotent (c c' : VenueCollection) :
    populate_database (populate_database c) = populate_database c ∧
    (populate_database c).venues = (populate_database c').venues ∧
    (populate_database c).venues = OUR_VENUES ∧
    (populate_database c).venues.length = OUR_VENUES.length := by
  have hv : ∀ d : VenueCollection, (populate_database d).venues = OUR_VENUES := by
    intro d
    show (create_index "location_2dsphere"
      { d with venues := [] ++ OUR_VENUES }).venues = OUR_VENUES
    rw [venues_create_index]
    rfl
  refine ⟨?_, (hv c).trans (hv c').symm, hv c, by rw [hv c]⟩
  have hidx : "location_2dsphere" ∈ (populate_database c).indexes :=
    mem_indexes_create_index _ _
  show create_index "location_2dsphere"
    { venues := [] ++ OUR_VENUES, indexes := (populate_database c).indexes } =
      populate_database c
  rw [create_index, if_pos hidx]
  show ({ venues := OUR_VENUES, indexes := (populate_database c).indexes } :
    VenueCollection) = populate_database c
  rw [← hv c]
